import Mathlib

set_option maxRecDepth 4000
set_option maxHeartbeats 1000000

/-!
Shallow embedding of the ReAct agent loop of
`1-Fundamentos_para_Agentes/3-Validacao_de_dados_com_Pydantic/pratica`
(`main.py`, `agent.py`, `config.py`).

Strings are modelled as `List Char` (`Str`).  The two Python regular
expressions used by `agent_loop` are compiled by hand into deterministic
scanning functions over `Str`; case-insensitivity (`re.IGNORECASE`) and the
`\s` class are modelled over ASCII, which covers every literal the program
matches against.  The chat-completion endpoint and the two HTTP tools are
external collaborators and enter the model as explicit function parameters;
the loop body itself is translated line by line from `agent_loop` in
`main.py`.
-/

abbrev Str := List Char

/-- Python's whitespace class `\s` over ASCII: space, tab, newline, carriage
return, vertical tab, form feed (also the set `str.strip()` removes). -/
def isPySpace (c : Char) : Bool :=
  c = ' ' || c = '\t' || c = '\n' || c = '\r' || c = '\x0b' || c = '\x0c'

/-- ASCII lower-casing: the model of `re.IGNORECASE` for the ASCII-only
patterns used in `main.py`. -/
def asciiLower (c : Char) : Char :=
  if 'A' ≤ c && c ≤ 'Z' then Char.ofNat (c.toNat + 32) else c

/-- Python `str.strip()`: drop leading and trailing whitespace. -/
def pyStrip (s : Str) : Str :=
  ((s.dropWhile isPySpace).reverse.dropWhile isPySpace).reverse

/-- `a` is a prefix of `b` (decidable, on raw lists). -/
def isPrefixL {α : Type} [DecidableEq α] : List α → List α → Bool
  | [], _ => true
  | _ :: _, [] => false
  | a :: as, b :: bs => a = b && isPrefixL as bs

/-- Python's substring test `pat in s`. -/
def subIn (pat : Str) : Str → Bool
  | [] => pat.isEmpty
  | s@(_ :: rest) => isPrefixL pat s || subIn pat rest

/-- Python `str.split(sep)` for a one-character separator:
`n` separators yield `n + 1` segments. -/
def splitOnChar (sep : Char) : Str → List Str
  | [] => [[]]
  | c :: rest =>
    match splitOnChar sep rest with
    | [] => [[c]]
    | s :: ss => if c = sep then [] :: s :: ss else (c :: s) :: ss

/-- Python `argumento.split(",")` from the `convert_currency` arity check. -/
def splitComma (s : Str) : List Str := splitOnChar ',' s

/-- Number of occurrences of a character. -/
def countChar (sep : Char) : Str → Nat
  | [] => 0
  | c :: rest => (if c = sep then 1 else 0) + countChar sep rest

/-- Case-insensitive (ASCII) equality of `s` against an all-lowercase
pattern. -/
def ciEq (s pat : Str) : Bool := s.map asciiLower == pat

/-- The greedy optional `:?` of `Answer:?\s*(.+)`: consume one leading
colon when present. -/
def dropOptColon (r : Str) : Str :=
  if r.head? = some ':' then r.tail else r

/-- `group(1)` of the Python pattern `Answer:?\s*(.+)` (flags
`DOTALL | IGNORECASE`) matched at a position where the 6-character
case-insensitive literal has just been consumed; `r` is the remaining text.
`none` means the pattern fails at this position (nothing at all follows the
literal).  The greedy optional colon and the greedy `\s*` backtrack just far
enough to leave at least one character for `(.+)`, which under `DOTALL`
extends to the end of the string: when only a lone colon follows, the colon
itself is surrendered to `(.+)`, and when only whitespace follows the colon,
`\s*` backtracks to leave the final whitespace character. -/
def answerGroupAt (r : Str) : Option Str :=
  if r = [] then none
  else if r = [':'] then some [':']
  else if (dropOptColon r).dropWhile isPySpace = [] then
    some ((dropOptColon r).drop ((dropOptColon r).length - 1))
  else some ((dropOptColon r).dropWhile isPySpace)

/-- Leftmost match of
`re.search(r"Answer:?\s*(.+)", s, re.DOTALL | re.IGNORECASE)`
(`main.py` line 86), returning `group(1)`. -/
def searchAnswer : Str → Option Str
  | [] => none
  | s@(_ :: rest) =>
    if ciEq (s.take 6) "answer".data then
      match answerGroupAt (s.drop 6) with
      | some g => some g
      | none => searchAnswer rest
    else searchAnswer rest

/-- `main.py` line 87:
`answer_match.group(1).strip() if answer_match else resposta`. -/
def answerResult (resposta : Str) : Str :=
  match searchAnswer resposta with
  | some g => pyStrip g
  | none => resposta

/-- Characters matched by `[a-z_]` under `re.IGNORECASE`. -/
def isIdentChar (c : Char) : Bool :=
  ('a' ≤ c && c ≤ 'z') || ('A' ≤ c && c ≤ 'Z') || c = '_'

/-- `group(2)` of `Action:\s*([a-z_]+):\s*(.+)` (no `DOTALL`) applied to the
text `r3` that follows the second colon: greedy `\s*`, then `(.+)` takes the
longest run of non-newline characters; when only whitespace remains, `\s*`
backtracks to the last character that is not a newline, and when every
remaining character is a newline (or none remains) the pattern fails. -/
def actionArgGroup (r3 : Str) : Option Str :=
  let r4 := r3.dropWhile isPySpace
  match r4 with
  | _ :: _ => some (r4.takeWhile (fun c => !(c = '\n')))
  | [] =>
    if r3.all (fun c => c = '\n') then none
    else
      let k := (r3.reverse.dropWhile (fun c => c = '\n')).length - 1
      some ((r3.drop k).takeWhile (fun c => !(c = '\n')))

/-- One attempted match of `Action:\s*([a-z_]+):\s*(.+)` (`re.IGNORECASE`) at
the head of `s`, returning the two groups.  The `\s*` and `[a-z_]+` steps are
deterministic: a shorter choice always puts a character of the wrong class in
front of the next pattern element, so only the maximal runs can succeed. -/
def actionMatchAt (s : Str) : Option (Str × Str) :=
  if ciEq (s.take 7) "action:".data then
    let r1 := (s.drop 7).dropWhile isPySpace
    match r1.takeWhile isIdentChar with
    | [] => none
    | name =>
      match r1.dropWhile isIdentChar with
      | ':' :: r3 => (actionArgGroup r3).map (fun a => (name, a))
      | _ => none
  else none

/-- First (leftmost) match of
`re.findall(r"Action:\s*([a-z_]+):\s*(.+)", resposta, re.IGNORECASE)`,
i.e. `action_match[0]` in `main.py` lines 99-105. -/
def findActionMatch : Str → Option (Str × Str)
  | [] => none
  | s@(_ :: rest) =>
    match actionMatchAt s with
    | some m => some m
    | none => findActionMatch rest

/-! ### Spec-side comparison definitions

These follow the words of the spec (not the source); they exist to be
compared with the source-derived parsing functions above. -/

/-- The spec's "first occurrence of the (case-insensitive) marker Answer":
the text after the first such occurrence, `none` when the marker is absent. -/
def afterFirstMarker : Str → Option Str
  | [] => none
  | s@(_ :: rest) =>
    if ciEq (s.take 6) "answer".data then some (s.drop 6)
    else afterFirstMarker rest

/-- Comparison definition following the spec's words (claim C7): everything
after the first occurrence of the marker "Answer", minus one optional colon
and the whitespace after it, trimmed; when the extraction pattern cannot
match (nothing at all follows the marker) the entire text is returned. -/
def specAnswerExtract (s : Str) : Str :=
  match afterFirstMarker s with
  | none => s
  | some r => if r = [] then s else pyStrip (dropOptColon r)

/-- `specAnswerExtract` amended as the code forces: when the text after the
marker is exactly one colon, the greedy backtracking of `Answer:?\s*(.+)`
captures the colon itself as the extracted answer. -/
def specAnswerExtractAmended (s : Str) : Str :=
  match afterFirstMarker s with
  | none => s
  | some r =>
    if r = [] then s
    else if r = [':'] then [':']
    else pyStrip (dropOptColon r)

/-- The claims' "contains the case-insensitive literal marker". -/
def containsCI (pat s : Str) : Bool := subIn (pat.map asciiLower) (s.map asciiLower)

/-- Characters of a lowercase-letters-and-underscore token (claim C4's
"well-formed" tool name). -/
def isLowerUnder (c : Char) : Bool := ('a' ≤ c && c ≤ 'z') || c = '_'

/-- Comparison definition following the spec's words (claim C4): a well-formed
line `Action: <tool_name>: <argument>` whose tool name is a
lowercase-letters-and-underscore token; yields the name and trimmed
argument. -/
def wfActionLine (line : Str) : Option (Str × Str) :=
  if isPrefixL "Action:".data line then
    let r1 := (line.drop 7).dropWhile isPySpace
    match r1.takeWhile isLowerUnder with
    | [] => none
    | name =>
      match r1.dropWhile isLowerUnder with
      | ':' :: r3 =>
        match pyStrip r3 with
        | [] => none
        | arg => some (name, arg)
      | _ => none
  else none

/-- The first well-formed `Action:` line of a turn, per the spec's words. -/
def firstWfActionLine (s : Str) : Option (Str × Str) :=
  (splitOnChar '\n' s).findSome? wfActionLine

/-! ### Data model (`agent.py`) -/

/-- One entry of `Agent.messages` (`agent.py`): a role-tagged message. -/
structure Message where
  role : Str
  content : Str
deriving DecidableEq

/-- Pydantic model `AgentIteration` (`agent.py` lines 34-49). -/
structure AgentIteration where
  numero : Nat
  resposta_llm : Str
  ferramenta_chamada : Option Str
  argumento : Option Str
  resultado_ferramenta : Option Str
deriving DecidableEq

/-- Pydantic model `AgentLog` (`agent.py` lines 52-70). -/
structure AgentLog where
  timestamp : Str
  pais_origem : Str
  pais_destino : Str
  max_iteracoes : Nat
  iteracoes_utilizadas : Nat
  iteracoes : List AgentIteration
  resposta_final : Str
  sucesso : Bool
deriving DecidableEq

/-- The two entries of the registry `FERRAMENTAS` (`agent.py` lines 236-239).
Both tools wrap their HTTP calls in `try/except` and normalise every failure
to an `"ERROR: ..."` string, so they enter the model as total text-valued
oracles; which oracle is supplied is irrelevant to the dispatch logic. -/
structure Tools where
  get_country_info : Str → Str
  convert_currency : Str → Str → Str

/-- The tool-dispatch block of `agent_loop` (`main.py` lines 112-136):
registry membership by exact name, the comma-split arity check special-cased
for `convert_currency`, and the two fixed error observations. -/
def dispatchTool (tools : Tools) (nome arg : Str) : Str :=
  if nome = "get_country_info".data ∨ nome = "convert_currency".data then
    if nome = "convert_currency".data then
      match (splitComma arg).map pyStrip with
      | [a, b] => tools.convert_currency a b
      | _ => "ERROR: convert_currency requer 2 argumentos".data
    else tools.get_country_info arg
  else "ERROR: ferramenta nao encontrada".data

/-! ### The Agent class and the loop (`agent.py`, `main.py`) -/

/-- `Agent.__init__`: the transcript starts with the system message exactly
when the system prompt is non-empty (`agent.py` lines 86-93). -/
def agentInit (system : Str) : List Message :=
  if system.isEmpty then [] else [⟨"system".data, system⟩]

/-- The transcript after `Agent.__call__` has (conditionally) appended the
user message (`agent.py` lines 97-99). -/
def msgsAfterUser (msgs : List Message) (message : Str) : List Message :=
  if message.isEmpty then msgs else msgs ++ [⟨"user".data, message⟩]

/-- `Agent.__call__` with `Agent._executar` inlined (`agent.py` lines
95-113): append the user message when non-empty, call the completion
endpoint on the whole transcript, append the assistant reply.  A transport
failure inside `_executar` is caught nowhere in `agent.py` or `main.py`;
the `Except` propagation models exactly that. -/
def agentCall {E : Type} (llm : List Message → Except E Str) (msgs : List Message)
    (message : Str) : Except E (List Message × Str) :=
  match llm (msgsAfterUser msgs message) with
  | .error e => .error e
  | .ok resposta => .ok (msgsAfterUser msgs message ++ [⟨"assistant".data, resposta⟩], resposta)

/-- The finalisation directive appended on the last iteration
(`main.py` lines 60-66). -/
def lastIterationWarning (i maxIter : Nat) : Str :=
  "\n\nATENCAO: Esta e sua ultima iteracao (".data ++ (toString i).data
    ++ "/".data ++ (toString maxIter).data
    ++ "). Finalize AGORA com Answer usando os dados ja coletados.".data

/-- Mutable state of one `agent_loop` run: the transcript, the next outbound
prompt, `resultado_final`, and the `log.iteracoes` / `log.sucesso` fields
that are written inside the loop. -/
structure LoopState where
  messages : List Message
  proximo_prompt : Str
  resultado_final : Str
  iteracoes : List AgentIteration
  sucesso : Bool
deriving DecidableEq

/-- The prompt actually sent on iteration `i` (`main.py` lines 60-66).  In the
source the variable `proximo_prompt` itself is reassigned on the last
iteration; since the loop ends right after, only the sent prompt is
observable, which this function computes. -/
def outboundPrompt (maxIter i : Nat) (st : LoopState) : Str :=
  if i = maxIter then st.proximo_prompt ++ lastIterationWarning i maxIter
  else st.proximo_prompt

/-- Classification of one raw model response and the corresponding state
update (`main.py` lines 73-141): the Answer branch (checked first, `break`),
the `PAUSE`/`Action` branch with the first regex match dispatched, and the
pure-reasoning fall-through.  The `Bool` is `true` when the `break` of the
Answer branch is taken. -/
def classifyStep (tools : Tools) (i : Nat) (st : LoopState) (msgs : List Message)
    (resposta : Str) : Bool × LoopState :=
  if subIn "Answer".data resposta then
    (true, { st with
      messages := msgs
      resultado_final := answerResult resposta
      sucesso := true
      iteracoes := st.iteracoes ++ [⟨i, resposta, none, none, none⟩] })
  else if subIn "PAUSE".data resposta && subIn "Action".data resposta then
    match findActionMatch resposta with
    | some (n0, a0) =>
      (false, { st with
        messages := msgs
        proximo_prompt := "Observation: ".data ++ dispatchTool tools (pyStrip n0) (pyStrip a0)
        iteracoes := st.iteracoes ++ [⟨i, resposta, some (pyStrip n0), some (pyStrip a0),
          some (dispatchTool tools (pyStrip n0) (pyStrip a0))⟩] })
    | none =>
      (false, { st with
        messages := msgs
        iteracoes := st.iteracoes ++ [⟨i, resposta, none, none, none⟩] })
  else
    (false, { st with
      messages := msgs
      iteracoes := st.iteracoes ++ [⟨i, resposta, none, none, none⟩] })

/-- One iteration `i` of the `for` body of `agent_loop` (`main.py` lines
57-141): build the outbound prompt, call the agent, classify. -/
def loopStep {E : Type} (tools : Tools) (llm : List Message → Except E Str)
    (maxIter i : Nat) (st : LoopState) : Except E (Bool × LoopState) :=
  match agentCall llm st.messages (outboundPrompt maxIter i st) with
  | .error e => .error e
  | .ok (msgs, resposta) => .ok (classifyStep tools i st msgs resposta)

/-- The `for i in range(1, max_iterations + 1)` loop of `agent_loop`, over the
list of remaining iteration indices; `true` from `loopStep` is the `break`. -/
def runIters {E : Type} (tools : Tools) (llm : List Message → Except E Str)
    (maxIter : Nat) : List Nat → LoopState → Except E LoopState
  | [], st => .ok st
  | i :: rest, st =>
    match loopStep tools llm maxIter i st with
    | .error e => .error e
    | .ok (true, st') => .ok st'
    | .ok (false, st') => runIters tools llm maxIter rest st'

/-- The fixed initial prompt of a run (`main.py` line 50). -/
def initialPrompt (origem destino : Str) : Str :=
  "Estou em ".data ++ origem ++ ", me fale sobre ".data ++ destino

/-- The state of `agent_loop` just before its `for` loop (`main.py` lines
39-53). -/
def initialLoopState (systemPrompt origem destino : Str) : LoopState :=
  { messages := agentInit systemPrompt
    proximo_prompt := initialPrompt origem destino
    resultado_final := []
    iteracoes := []
    sucesso := false }

/-- `agent_loop` (`main.py` lines 16-160) without its printing and file
output: run up to `maxIter` iterations, then finalise
`log.iteracoes_utilizadas` and `log.resposta_final` and return the log
together with the returned `resultado_final`.  Finalisation (and the
subsequent log writing of `_salvar_log`) happens only on the non-error path:
an endpoint failure propagates as `.error` with no `AgentLog` produced. -/
def agent_loop {E : Type} (tools : Tools) (llm : List Message → Except E Str)
    (timestamp origem destino : Str) (maxIter : Nat) (systemPrompt : Str) :
    Except E (AgentLog × Str) :=
  match runIters tools llm maxIter (List.range' 1 maxIter)
      (initialLoopState systemPrompt origem destino) with
  | .error e => .error e
  | .ok st =>
    .ok ({ timestamp := timestamp
           pais_origem := origem
           pais_destino := destino
           max_iteracoes := maxIter
           iteracoes_utilizadas := st.iteracoes.length
           iteracoes := st.iteracoes
           resposta_final := st.resultado_final
           sucesso := st.sucesso }, st.resultado_final)

/-- An always-succeeding completion endpoint: every model call returns a
string (the hypothesis of claims C1, C2, C4, C5, C6, C8). -/
def okLLM (E : Type) (f : List Message → Str) : List Message → Except E Str :=
  fun m => .ok (f m)

/-- `config.py` lines 19-26: the iteration budget read from input;
values below 5 are replaced by 5. -/
def maxIterationsFrom (numero : Int) : Int :=
  if 5 ≤ numero then numero else 5

/-- The shape the transcript grows by: one `user` message followed by one
`assistant` message per completed iteration. -/
def userAssistantPairs : List Message → Bool
  | [] => true
  | u :: a :: rest =>
    u.role == "user".data && a.role == "assistant".data && userAssistantPairs rest
  | _ => false

/-! ### Helper lemmas -/

theorem append_ne_nil_left {α : Type} (a b : List α) (h : a ≠ []) : a ++ b ≠ [] := by
  cases a with
  | nil => exact absurd rfl h
  | cons c l => exact fun hc => List.noConfusion hc

theorem initialPrompt_ne_nil (origem destino : Str) : initialPrompt origem destino ≠ [] := by
  intro hc
  exact List.noConfusion hc

theorem lastIterationWarning_ne_nil (i maxIter : Nat) : lastIterationWarning i maxIter ≠ [] := by
  intro hc
  exact List.noConfusion hc

theorem outboundPrompt_ne_nil (maxIter i : Nat) (st : LoopState)
    (hp : st.proximo_prompt ≠ []) : outboundPrompt maxIter i st ≠ [] := by
  unfold outboundPrompt
  by_cases h : i = maxIter
  · simp only [h, if_pos rfl]
    exact append_ne_nil_left _ _ hp
  · simpa [h] using hp

theorem msgsAfterUser_of_ne_nil (msgs : List Message) (p : Str) (hp : p ≠ []) :
    msgsAfterUser msgs p = msgs ++ [⟨"user".data, p⟩] := by
  unfold msgsAfterUser
  rw [if_neg]
  simpa [List.isEmpty_iff]

theorem runIters_cons {E : Type} (tools : Tools) (llm : List Message → Except E Str)
    (maxIter i : Nat) (rest : List Nat) (st : LoopState) :
    runIters tools llm maxIter (i :: rest) st =
      match loopStep tools llm maxIter i st with
      | .error e => .error e
      | .ok (true, st') => .ok st'
      | .ok (false, st') => runIters tools llm maxIter rest st' := rfl

theorem loopStep_okLLM {E : Type} (tools : Tools) (f : List Message → Str)
    (maxIter i : Nat) (st : LoopState) :
    loopStep tools (okLLM E f) maxIter i st =
      .ok (classifyStep tools i st
        (msgsAfterUser st.messages (outboundPrompt maxIter i st)
          ++ [⟨"assistant".data, f (msgsAfterUser st.messages (outboundPrompt maxIter i st))⟩])
        (f (msgsAfterUser st.messages (outboundPrompt maxIter i st)))) := rfl

theorem take_range' : ∀ (n k s : Nat), k ≤ n → (List.range' s n).take k = List.range' s k := by
  intro n
  induction n with
  | zero => intro k s h; interval_cases k; rfl
  | succ m ih =>
    intro k s h
    cases k with
    | zero => rfl
    | succ k' =>
      rw [List.range'_succ, List.range'_succ, List.take_succ_cons,
        ih k' (s + 1) (Nat.le_of_succ_le_succ h)]

theorem classifyStep_answer (tools : Tools) (i : Nat) (st : LoopState)
    (msgs : List Message) (resposta : Str)
    (hA : subIn "Answer".data resposta = true) :
    classifyStep tools i st msgs resposta =
      (true, { st with
        messages := msgs
        resultado_final := answerResult resposta
        sucesso := true
        iteracoes := st.iteracoes ++ [⟨i, resposta, none, none, none⟩] }) := by
  simp [classifyStep, hA]

theorem classifyStep_action (tools : Tools) (i : Nat) (st : LoopState)
    (msgs : List Message) (resposta : Str) (n0 a0 : Str)
    (hA : subIn "Answer".data resposta = false)
    (hPA : (subIn "PAUSE".data resposta && subIn "Action".data resposta) = true)
    (hm : findActionMatch resposta = some (n0, a0)) :
    classifyStep tools i st msgs resposta =
      (false, { st with
        messages := msgs
        proximo_prompt := "Observation: ".data ++ dispatchTool tools (pyStrip n0) (pyStrip a0)
        iteracoes := st.iteracoes ++ [⟨i, resposta, some (pyStrip n0), some (pyStrip a0),
          some (dispatchTool tools (pyStrip n0) (pyStrip a0))⟩] }) := by
  simp [classifyStep, hA, hPA, hm]

theorem classifyStep_action_noMatch (tools : Tools) (i : Nat) (st : LoopState)
    (msgs : List Message) (resposta : Str)
    (hA : subIn "Answer".data resposta = false)
    (hPA : (subIn "PAUSE".data resposta && subIn "Action".data resposta) = true)
    (hm : findActionMatch resposta = none) :
    classifyStep tools i st msgs resposta =
      (false, { st with
        messages := msgs
        iteracoes := st.iteracoes ++ [⟨i, resposta, none, none, none⟩] }) := by
  simp [classifyStep, hA, hPA, hm]

theorem classifyStep_plain (tools : Tools) (i : Nat) (st : LoopState)
    (msgs : List Message) (resposta : Str)
    (hA : subIn "Answer".data resposta = false)
    (hPA : (subIn "PAUSE".data resposta && subIn "Action".data resposta) = false) :
    classifyStep tools i st msgs resposta =
      (false, { st with
        messages := msgs
        iteracoes := st.iteracoes ++ [⟨i, resposta, none, none, none⟩] }) := by
  simp [classifyStep, hA, hPA]

/-- What a pure (never-failing) run does from a given state: it succeeds,
appends one `AgentIteration` per executed iteration (numbered by the
iteration indices, in order), grows the transcript by one user and one
assistant message per iteration, keeps the outbound prompt non-empty, and
either exhausts the whole index list without touching `sucesso` and
`resultado_final` or stops early with `sucesso = true`. -/
def runSpec (E : Type) (tools : Tools) (f : List Message → Str) (maxIter : Nat)
    (idxs : List Nat) (st : LoopState) : Prop :=
  ∃ (st' : LoopState) (recs : List AgentIteration) (newMsgs : List Message),
    runIters tools (okLLM E f) maxIter idxs st = .ok st'
    ∧ st'.iteracoes = st.iteracoes ++ recs
    ∧ recs.map (fun r => r.numero) = idxs.take recs.length
    ∧ st'.messages = st.messages ++ newMsgs
    ∧ userAssistantPairs newMsgs = true
    ∧ newMsgs.length = 2 * recs.length
    ∧ st'.proximo_prompt ≠ []
    ∧ ((st'.sucesso = st.sucesso ∧ st'.resultado_final = st.resultado_final
        ∧ recs.length = idxs.length)
       ∨ st'.sucesso = true)

theorem runSpec_extend (E : Type) (tools : Tools) (f : List Message → Str)
    (maxIter i : Nat) (rest : List Nat) (st stC : LoopState)
    (recC : AgentIteration) (u a : Message)
    (hnum : recC.numero = i)
    (hit : stC.iteracoes = st.iteracoes ++ [recC])
    (hmsg : stC.messages = st.messages ++ [u, a])
    (hu : u.role = "user".data) (ha : a.role = "assistant".data)
    (hsuc : stC.sucesso = st.sucesso)
    (hres : stC.resultado_final = st.resultado_final)
    (hrun : runIters tools (okLLM E f) maxIter (i :: rest) st =
      runIters tools (okLLM E f) maxIter rest stC)
    (hIH : runSpec E tools f maxIter rest stC) :
    runSpec E tools f maxIter (i :: rest) st := by
  obtain ⟨st', recs', newMsgs', h1, h2, h3, h4, h5, h6, h7, h8⟩ := hIH
  refine ⟨st', recC :: recs', u :: a :: newMsgs', hrun.trans h1, ?_, ?_, ?_, ?_, ?_, h7, ?_⟩
  · rw [h2, hit, List.append_assoc]
    rfl
  · simp only [List.map_cons, List.length_cons, List.take_succ_cons, hnum, h3]
  · rw [h4, hmsg, List.append_assoc]
    rfl
  · simp [userAssistantPairs, hu, ha, h5]
  · simp only [List.length_cons, h6]
    omega
  · rcases h8 with ⟨hs, hr, hl⟩ | hs
    · exact Or.inl ⟨hs.trans hsuc, hr.trans hres, by simp [hl]⟩
    · exact Or.inr hs

theorem runIters_okLLM_spec (E : Type) (tools : Tools) (f : List Message → Str)
    (maxIter : Nat) :
    ∀ (idxs : List Nat) (st : LoopState), st.proximo_prompt ≠ [] →
    runSpec E tools f maxIter idxs st := by
  intro idxs
  induction idxs with
  | nil =>
    intro st hp
    exact ⟨st, [], [], rfl, (List.append_nil _).symm, rfl, (List.append_nil _).symm,
      rfl, rfl, hp, Or.inl ⟨rfl, rfl, rfl⟩⟩
  | cons i rest ih =>
    intro st hp
    have hpo := outboundPrompt_ne_nil maxIter i st hp
    have hmu := msgsAfterUser_of_ne_nil st.messages (outboundPrompt maxIter i st) hpo
    by_cases hA : subIn "Answer".data
        (f (msgsAfterUser st.messages (outboundPrompt maxIter i st))) = true
    · -- Answer branch: the loop breaks after this iteration.
      exact ⟨{ st with
          messages := msgsAfterUser st.messages (outboundPrompt maxIter i st)
            ++ [⟨"assistant".data, f (msgsAfterUser st.messages (outboundPrompt maxIter i st))⟩]
          resultado_final := answerResult
            (f (msgsAfterUser st.messages (outboundPrompt maxIter i st)))
          sucesso := true
          iteracoes := st.iteracoes
            ++ [⟨i, f (msgsAfterUser st.messages (outboundPrompt maxIter i st)),
                none, none, none⟩] },
        [⟨i, f (msgsAfterUser st.messages (outboundPrompt maxIter i st)), none, none, none⟩],
        [⟨"user".data, outboundPrompt maxIter i st⟩,
         ⟨"assistant".data, f (msgsAfterUser st.messages (outboundPrompt maxIter i st))⟩],
        by rw [runIters_cons, loopStep_okLLM, classifyStep_answer _ _ _ _ _ hA],
        rfl,
        by simp,
        by simp [hmu, List.append_assoc],
        by simp [userAssistantPairs],
        rfl, hp, Or.inr rfl⟩
    · rw [Bool.not_eq_true] at hA
      by_cases hPA : (subIn "PAUSE".data
            (f (msgsAfterUser st.messages (outboundPrompt maxIter i st)))
          && subIn "Action".data
            (f (msgsAfterUser st.messages (outboundPrompt maxIter i st)))) = true
      · cases hm : findActionMatch
            (f (msgsAfterUser st.messages (outboundPrompt maxIter i st))) with
        | some pr =>
          obtain ⟨n0, a0⟩ := pr
          exact runSpec_extend E tools f maxIter i rest st
            { st with
              messages := msgsAfterUser st.messages (outboundPrompt maxIter i st)
                ++ [⟨"assistant".data,
                     f (msgsAfterUser st.messages (outboundPrompt maxIter i st))⟩]
              proximo_prompt := "Observation: ".data
                ++ dispatchTool tools (pyStrip n0) (pyStrip a0)
              iteracoes := st.iteracoes
                ++ [⟨i, f (msgsAfterUser st.messages (outboundPrompt maxIter i st)),
                    some (pyStrip n0), some (pyStrip a0),
                    some (dispatchTool tools (pyStrip n0) (pyStrip a0))⟩] }
            ⟨i, f (msgsAfterUser st.messages (outboundPrompt maxIter i st)),
              some (pyStrip n0), some (pyStrip a0),
              some (dispatchTool tools (pyStrip n0) (pyStrip a0))⟩
            ⟨"user".data, outboundPrompt maxIter i st⟩
            ⟨"assistant".data, f (msgsAfterUser st.messages (outboundPrompt maxIter i st))⟩
            rfl rfl (by simp [hmu, List.append_assoc]) rfl rfl rfl rfl
            (by rw [runIters_cons, loopStep_okLLM,
              classifyStep_action _ _ _ _ _ _ _ hA hPA hm])
            (ih _ (fun hc => List.noConfusion hc))
        | none =>
          exact runSpec_extend E tools f maxIter i rest st
            { st with
              messages := msgsAfterUser st.messages (outboundPrompt maxIter i st)
                ++ [⟨"assistant".data,
                     f (msgsAfterUser st.messages (outboundPrompt maxIter i st))⟩]
              iteracoes := st.iteracoes
                ++ [⟨i, f (msgsAfterUser st.messages (outboundPrompt maxIter i st)),
                    none, none, none⟩] }
            ⟨i, f (msgsAfterUser st.messages (outboundPrompt maxIter i st)),
              none, none, none⟩
            ⟨"user".data, outboundPrompt maxIter i st⟩
            ⟨"assistant".data, f (msgsAfterUser st.messages (outboundPrompt maxIter i st))⟩
            rfl rfl (by simp [hmu, List.append_assoc]) rfl rfl rfl rfl
            (by rw [runIters_cons, loopStep_okLLM,
              classifyStep_action_noMatch _ _ _ _ _ hA hPA hm])
            (ih _ hp)
      · rw [Bool.not_eq_true] at hPA
        exact runSpec_extend E tools f maxIter i rest st
          { st with
            messages := msgsAfterUser st.messages (outboundPrompt maxIter i st)
              ++ [⟨"assistant".data,
                   f (msgsAfterUser st.messages (outboundPrompt maxIter i st))⟩]
            iteracoes := st.iteracoes
              ++ [⟨i, f (msgsAfterUser st.messages (outboundPrompt maxIter i st)),
                  none, none, none⟩] }
          ⟨i, f (msgsAfterUser st.messages (outboundPrompt maxIter i st)),
            none, none, none⟩
          ⟨"user".data, outboundPrompt maxIter i st⟩
          ⟨"assistant".data, f (msgsAfterUser st.messages (outboundPrompt maxIter i st))⟩
          rfl rfl (by simp [hmu, List.append_assoc]) rfl rfl rfl rfl
          (by rw [runIters_cons, loopStep_okLLM, classifyStep_plain _ _ _ _ _ hA hPA])
          (ih _ hp)

/-! ### Relating the regex search for Answer to the spec's first-occurrence
extraction (claim C7) -/

theorem dropWhile_idem (p : Char → Bool) (l : Str) :
    (l.dropWhile p).dropWhile p = l.dropWhile p := by
  induction l with
  | nil => rfl
  | cons c rest ih =>
    by_cases hc : p c = true
    · simp [List.dropWhile_cons, hc, ih]
    · simp [List.dropWhile_cons, hc]

theorem pyStrip_dropWhile (l : Str) : pyStrip (l.dropWhile isPySpace) = pyStrip l := by
  unfold pyStrip
  rw [dropWhile_idem]

theorem pyStrip_all_ws (l : Str) (h : ∀ c ∈ l, isPySpace c = true) : pyStrip l = [] := by
  unfold pyStrip
  rw [List.dropWhile_eq_nil_iff.mpr h]
  rfl

theorem ciEq_length {s pat : Str} (h : ciEq s pat = true) : s.length = pat.length := by
  unfold ciEq at h
  have h2 : s.map asciiLower = pat := eq_of_beq h
  calc s.length = (s.map asciiLower).length := (List.length_map _ _).symm
  _ = pat.length := by rw [h2]

theorem searchAnswer_short : ∀ (s : Str), s.length < 6 → searchAnswer s = none := by
  intro s
  induction s with
  | nil => intro _; rfl
  | cons c rest ih =>
    intro h
    have hc : ciEq ((c :: rest).take 6) "answer".data = false := by
      by_contra hb
      rw [Bool.not_eq_false] at hb
      have h1 := ciEq_length hb
      have h6 : ("answer".data).length = 6 := rfl
      rw [List.length_take, h6] at h1
      omega
    simp only [searchAnswer, hc, Bool.false_eq_true, if_false]
    exact ih (by simp only [List.length_cons] at h; omega)

theorem answerGroupAt_some (r : Str) (h : r ≠ []) : ∃ g, answerGroupAt r = some g := by
  unfold answerGroupAt
  rw [if_neg h]
  by_cases h2 : r = [':']
  · rw [if_pos h2]
    exact ⟨_, rfl⟩
  · rw [if_neg h2]
    by_cases h3 : (dropOptColon r).dropWhile isPySpace = []
    · rw [if_pos h3]
      exact ⟨_, rfl⟩
    · rw [if_neg h3]
      exact ⟨_, rfl⟩

theorem pyStrip_answerGroupAt (r : Str) (hne : r ≠ []) (hcol : r ≠ [':']) :
    ∃ g, answerGroupAt r = some g ∧ pyStrip g = pyStrip (dropOptColon r) := by
  unfold answerGroupAt
  rw [if_neg hne, if_neg hcol]
  by_cases h3 : (dropOptColon r).dropWhile isPySpace = []
  · rw [if_pos h3]
    refine ⟨_, rfl, ?_⟩
    have hws : ∀ c ∈ dropOptColon r, isPySpace c = true := List.dropWhile_eq_nil_iff.mp h3
    rw [pyStrip_all_ws _ hws,
      pyStrip_all_ws _ (fun c hcm => hws c (List.drop_subset _ _ hcm))]
  · rw [if_neg h3]
    exact ⟨_, rfl, pyStrip_dropWhile _⟩

theorem afterFirstMarker_cons_pos (c : Char) (rest : Str)
    (hc : ciEq ((c :: rest).take 6) "answer".data = true) :
    afterFirstMarker (c :: rest) = some ((c :: rest).drop 6) := by
  unfold afterFirstMarker
  rw [if_pos hc]

theorem afterFirstMarker_cons_neg (c : Char) (rest : Str)
    (hc : ciEq ((c :: rest).take 6) "answer".data = false) :
    afterFirstMarker (c :: rest) = afterFirstMarker rest := by
  unfold afterFirstMarker
  rw [hc, if_neg Bool.false_ne_true]
  exact afterFirstMarker.eq_def rest

theorem searchAnswer_cons_pos (c : Char) (rest : Str) (g : Str)
    (hc : ciEq ((c :: rest).take 6) "answer".data = true)
    (hg : answerGroupAt ((c :: rest).drop 6) = some g) :
    searchAnswer (c :: rest) = some g := by
  unfold searchAnswer
  rw [if_pos hc, hg]

theorem searchAnswer_cons_posNone (c : Char) (rest : Str)
    (hc : ciEq ((c :: rest).take 6) "answer".data = true)
    (hg : answerGroupAt ((c :: rest).drop 6) = none) :
    searchAnswer (c :: rest) = searchAnswer rest := by
  unfold searchAnswer
  rw [if_pos hc, hg]
  exact searchAnswer.eq_def rest

theorem searchAnswer_cons_neg (c : Char) (rest : Str)
    (hc : ciEq ((c :: rest).take 6) "answer".data = false) :
    searchAnswer (c :: rest) = searchAnswer rest := by
  unfold searchAnswer
  rw [hc, if_neg Bool.false_ne_true]
  exact searchAnswer.eq_def rest

theorem answerResult_of_some (s g : Str) (h : searchAnswer s = some g) :
    answerResult s = pyStrip g := by
  unfold answerResult
  rw [h]

theorem answerResult_of_none (s : Str) (h : searchAnswer s = none) :
    answerResult s = s := by
  unfold answerResult
  rw [h]

theorem specAmended_of_none (s : Str) (h : afterFirstMarker s = none) :
    specAnswerExtractAmended s = s := by
  unfold specAnswerExtractAmended
  rw [h]

theorem specAmended_of_some (s r : Str) (h : afterFirstMarker s = some r) :
    specAnswerExtractAmended s =
      (if r = [] then s else if r = [':'] then [':'] else pyStrip (dropOptColon r)) := by
  unfold specAnswerExtractAmended
  rw [h]

theorem searchAnswer_afterFirstMarker : ∀ (s : Str),
    (afterFirstMarker s = none → searchAnswer s = none)
    ∧ (∀ r, afterFirstMarker s = some r → r = [] → searchAnswer s = none)
    ∧ (∀ r, afterFirstMarker s = some r → r ≠ [] → searchAnswer s = answerGroupAt r) := by
  intro s
  induction s with
  | nil =>
    exact ⟨fun _ => rfl, fun r h => by simp [afterFirstMarker] at h,
      fun r h => by simp [afterFirstMarker] at h⟩
  | cons c rest ih =>
    obtain ⟨ih1, ih2, ih3⟩ := ih
    by_cases hc : ciEq ((c :: rest).take 6) "answer".data = true
    · refine ⟨?_, ?_, ?_⟩
      · intro h
        rw [afterFirstMarker_cons_pos c rest hc] at h
        exact absurd h (by simp)
      · intro r h hrnil
        rw [afterFirstMarker_cons_pos c rest hc] at h
        have hr : (c :: rest).drop 6 = r := by injection h
        subst hrnil
        have hlen6 : (c :: rest).length ≤ 6 := by
          have h1 := congrArg List.length hr
          rw [List.length_drop] at h1
          simp only [List.length_nil] at h1
          omega
        have hshort : searchAnswer rest = none :=
          searchAnswer_short rest (by simp only [List.length_cons] at hlen6; omega)
        have hgnone : answerGroupAt ((c :: rest).drop 6) = none := by
          rw [hr]
          rfl
        rw [searchAnswer_cons_posNone c rest hc hgnone, hshort]
      · intro r h hrne
        rw [afterFirstMarker_cons_pos c rest hc] at h
        have hr : (c :: rest).drop 6 = r := by injection h
        obtain ⟨g, hg⟩ := answerGroupAt_some r hrne
        rw [searchAnswer_cons_pos c rest g hc (by rw [hr, hg]), hg]
    · rw [Bool.not_eq_true] at hc
      rw [afterFirstMarker_cons_neg c rest hc, searchAnswer_cons_neg c rest hc]
      exact ⟨ih1, ih2, ih3⟩

/-- The code's Answer extraction agrees, on every input, with the spec's
first-occurrence extraction amended at the lone-colon corner case. -/
theorem answerResult_eq_specAmended (s : Str) :
    answerResult s = specAnswerExtractAmended s := by
  obtain ⟨l1, l2, l3⟩ := searchAnswer_afterFirstMarker s
  cases ham : afterFirstMarker s with
  | none =>
    rw [answerResult_of_none s (l1 ham), specAmended_of_none s ham]
  | some r =>
    rw [specAmended_of_some s r ham]
    by_cases hrnil : r = []
    · rw [if_pos hrnil, answerResult_of_none s (l2 r ham hrnil)]
    · rw [if_neg hrnil]
      by_cases hrcol : r = [':']
      · rw [if_pos hrcol]
        have hg : answerGroupAt r = some [':'] := by
          rw [hrcol]
          rfl
        rw [answerResult_of_some s [':'] ((l3 r ham hrnil).trans hg)]
        rfl
      · rw [if_neg hrcol]
        obtain ⟨g, hg, hgs⟩ := pyStrip_answerGroupAt r hrnil hrcol
        rw [answerResult_of_some s g ((l3 r ham hrnil).trans hg)]
        exact hgs

/-! ### Runs in which the model never emits the Answer marker (claim C6) -/

theorem runIters_noAnswer (E : Type) (tools : Tools) (f : List Message → Str)
    (maxIter : Nat) (hf : ∀ m, subIn "Answer".data (f m) = false) :
    ∀ (idxs : List Nat) (st : LoopState),
    ∃ st', runIters tools (okLLM E f) maxIter idxs st = .ok st'
      ∧ st'.iteracoes.length = st.iteracoes.length + idxs.length
      ∧ st'.sucesso = st.sucesso
      ∧ st'.resultado_final = st.resultado_final := by
  intro idxs
  induction idxs with
  | nil =>
    intro st
    exact ⟨st, rfl, by simp, rfl, rfl⟩
  | cons i rest ih =>
    intro st
    by_cases hPA : (subIn "PAUSE".data
          (f (msgsAfterUser st.messages (outboundPrompt maxIter i st)))
        && subIn "Action".data
          (f (msgsAfterUser st.messages (outboundPrompt maxIter i st)))) = true
    · cases hm : findActionMatch
          (f (msgsAfterUser st.messages (outboundPrompt maxIter i st))) with
      | some pr =>
        obtain ⟨n0, a0⟩ := pr
        obtain ⟨st', h1, h2, h3, h4⟩ := ih
          { st with
            messages := msgsAfterUser st.messages (outboundPrompt maxIter i st)
              ++ [⟨"assistant".data,
                   f (msgsAfterUser st.messages (outboundPrompt maxIter i st))⟩]
            proximo_prompt := "Observation: ".data
              ++ dispatchTool tools (pyStrip n0) (pyStrip a0)
            iteracoes := st.iteracoes
              ++ [⟨i, f (msgsAfterUser st.messages (outboundPrompt maxIter i st)),
                  some (pyStrip n0), some (pyStrip a0),
                  some (dispatchTool tools (pyStrip n0) (pyStrip a0))⟩] }
        refine ⟨st', ?_, ?_, h3, h4⟩
        · rw [runIters_cons, loopStep_okLLM,
            classifyStep_action _ _ _ _ _ _ _ (hf _) hPA hm]
          exact h1
        · simp only [List.length_append, List.length_cons, List.length_nil] at h2 ⊢
          omega
      | none =>
        obtain ⟨st', h1, h2, h3, h4⟩ := ih
          { st with
            messages := msgsAfterUser st.messages (outboundPrompt maxIter i st)
              ++ [⟨"assistant".data,
                   f (msgsAfterUser st.messages (outboundPrompt maxIter i st))⟩]
            iteracoes := st.iteracoes
              ++ [⟨i, f (msgsAfterUser st.messages (outboundPrompt maxIter i st)),
                  none, none, none⟩] }
        refine ⟨st', ?_, ?_, h3, h4⟩
        · rw [runIters_cons, loopStep_okLLM,
            classifyStep_action_noMatch _ _ _ _ _ (hf _) hPA hm]
          exact h1
        · simp only [List.length_append, List.length_cons, List.length_nil] at h2 ⊢
          omega
    · rw [Bool.not_eq_true] at hPA
      obtain ⟨st', h1, h2, h3, h4⟩ := ih
        { st with
          messages := msgsAfterUser st.messages (outboundPrompt maxIter i st)
            ++ [⟨"assistant".data,
                 f (msgsAfterUser st.messages (outboundPrompt maxIter i st))⟩]
          iteracoes := st.iteracoes
            ++ [⟨i, f (msgsAfterUser st.messages (outboundPrompt maxIter i st)),
                none, none, none⟩] }
      refine ⟨st', ?_, ?_, h3, h4⟩
      · rw [runIters_cons, loopStep_okLLM, classifyStep_plain _ _ _ _ _ (hf _) hPA]
        exact h1
      · simp only [List.length_append, List.length_cons, List.length_nil] at h2 ⊢
        omega

/-! ### The comma split (claim C3) and the first Action match (claim C4) -/

theorem splitOnChar_length (sep : Char) :
    ∀ (l : Str), (splitOnChar sep l).length = countChar sep l + 1 := by
  intro l
  induction l with
  | nil => rfl
  | cons c rest ih =>
    cases hs : splitOnChar sep rest with
    | nil =>
      rw [hs] at ih
      simp at ih
    | cons s ss =>
      rw [hs] at ih
      simp only [List.length_cons] at ih
      by_cases hc : c = sep
      · subst hc
        simp only [splitOnChar, hs, countChar, eq_self_iff_true, if_true,
          List.length_cons]
        omega
      · simp only [splitOnChar, hs, if_neg hc, countChar, List.length_cons]
        omega

theorem findActionMatch_least : ∀ (s : Str) (n0 a0 : Str),
    findActionMatch s = some (n0, a0) →
    ∃ k, actionMatchAt (s.drop k) = some (n0, a0)
      ∧ ∀ j, j < k → actionMatchAt (s.drop j) = none := by
  intro s
  induction s with
  | nil =>
    intro n0 a0 h
    exact absurd h (by simp [findActionMatch])
  | cons c rest ih =>
    intro n0 a0 h
    cases ham : actionMatchAt (c :: rest) with
    | some m =>
      have hm : m = (n0, a0) := by
        have h2 : findActionMatch (c :: rest) = some m := by
          unfold findActionMatch
          rw [ham]
        exact Option.some.inj (h2.symm.trans h)
      subst hm
      exact ⟨0, ham, fun j hj => absurd hj (by omega)⟩
    | none =>
      have h' : findActionMatch rest = some (n0, a0) := by
        have h2 : findActionMatch (c :: rest) = findActionMatch rest := by
          unfold findActionMatch
          rw [ham]
          exact findActionMatch.eq_def rest
        rw [← h2]
        exact h
      obtain ⟨k, h1, h2⟩ := ih n0 a0 h'
      refine ⟨k + 1, by simpa using h1, ?_⟩
      intro j hj
      cases j with
      | zero => simpa using ham
      | succ j' =>
        have := h2 j' (by omega)
        simpa using this

/-! ### Fixture oracles for concrete runs

Two distinguishable tool oracles: a dispatch outcome that is the same under
both cannot have invoked any tool. -/

def toolsA : Tools := ⟨fun _ => "infoA".data, fun _ _ => "convA".data⟩

def toolsB : Tools := ⟨fun _ => "infoB".data, fun _ _ => "convB".data⟩

/-! ### The claims -/

/-- C10: for every integer `n` read from the configuration input,
`MAX_ITERATIONS` equals `n` when `n ≥ 5` and equals `5` otherwise, so the
budget supplied by the shipped configuration is always at least 5. -/
theorem C10_min_budget (n : Int) :
    (5 ≤ n → maxIterationsFrom n = n) ∧ (n < 5 → maxIterationsFrom n = 5)
    ∧ 5 ≤ maxIterationsFrom n := by
  unfold maxIterationsFrom
  by_cases h : 5 ≤ n
  · rw [if_pos h]
    exact ⟨fun _ => rfl, fun hlt => absurd h (by omega), h⟩
  · rw [if_neg h]
    exact ⟨fun h5 => absurd h5 h, fun _ => rfl, le_refl 5⟩

theorem C10_min_budget_witness :
    maxIterationsFrom 7 = 7 ∧ maxIterationsFrom 3 = 5 ∧ 5 ≤ maxIterationsFrom 3 :=
  ⟨(C10_min_budget 7).1 (by norm_num), (C10_min_budget 3).2.1 (by norm_num),
    (C10_min_budget 3).2.2⟩

/-- C3 (counterexample): the claim says an empty comma-separated part yields
the fixed arity error without invoking the tool.  On the argument `"USD,"`
the split yields exactly two parts, the second empty, and the tool IS
invoked (the dispatch outcome depends on which oracle is installed and is
not the arity-error string). -/
theorem C3_counterexample :
    countChar ',' "USD,".data = 1
    ∧ (splitComma "USD,".data).map pyStrip = ["USD".data, []]
    ∧ dispatchTool toolsA "convert_currency".data "USD,".data = "convA".data
    ∧ dispatchTool toolsB "convert_currency".data "USD,".data = "convB".data
    ∧ ¬ ("convA".data = "ERROR: convert_currency requer 2 argumentos".data) := by
  decide

/-- C3 (amended): the dispatcher splits the raw argument on every comma and
trims all parts; whenever the number of commas differs from one (zero commas
or more than one) — with no check that parts are non-empty — it returns the
fixed arity-error observation without invoking the tool (the outcome is
independent of the installed oracles). -/
theorem C3_comma_count_arity (tools tools2 : Tools) (arg : Str)
    (h : countChar ',' arg ≠ 1) :
    dispatchTool tools "convert_currency".data arg
      = "ERROR: convert_currency requer 2 argumentos".data
    ∧ dispatchTool tools "convert_currency".data arg
      = dispatchTool tools2 "convert_currency".data arg := by
  have key : ∀ t : Tools, dispatchTool t "convert_currency".data arg
      = "ERROR: convert_currency requer 2 argumentos".data := by
    intro t
    have hlen : ((splitComma arg).map pyStrip).length ≠ 2 := by
      rw [List.length_map, splitComma, splitOnChar_length]
      omega
    unfold dispatchTool
    rw [if_pos (Or.inr rfl), if_pos rfl]
    cases hsp : (splitComma arg).map pyStrip with
    | nil => rfl
    | cons x xs =>
      cases xs with
      | nil => rfl
      | cons y ys =>
        cases ys with
        | nil =>
          exfalso
          rw [hsp] at hlen
          simp at hlen
        | cons z zs => rfl
  exact ⟨key tools, (key tools).trans (key tools2).symm⟩

theorem C3_comma_count_arity_witness :
    dispatchTool toolsA "convert_currency".data "USD".data
      = "ERROR: convert_currency requer 2 argumentos".data
    ∧ dispatchTool toolsA "convert_currency".data "USD".data
      = dispatchTool toolsB "convert_currency".data "USD".data :=
  C3_comma_count_arity toolsA toolsB "USD".data (by decide)

/-- C5: on an Action turn whose extracted (trimmed) tool name is not a key of
the registry, the observation is exactly "ERROR: ferramenta nao encontrada",
no registered tool is invoked (the outcome is the same whatever oracles are
installed), and the run continues into the remaining iterations with that
observation as the next prompt. -/
theorem C5_unknown_tool (E : Type) (tools tools2 : Tools) (f : List Message → Str)
    (maxIter i : Nat) (rest : List Nat) (st : LoopState) (resposta n0 a0 : Str)
    (hresp : f (msgsAfterUser st.messages (outboundPrompt maxIter i st)) = resposta)
    (hA : subIn "Answer".data resposta = false)
    (hPA : (subIn "PAUSE".data resposta && subIn "Action".data resposta) = true)
    (hm : findActionMatch resposta = some (n0, a0))
    (hn1 : pyStrip n0 ≠ "get_country_info".data)
    (hn2 : pyStrip n0 ≠ "convert_currency".data) :
    dispatchTool tools (pyStrip n0) (pyStrip a0)
      = "ERROR: ferramenta nao encontrada".data
    ∧ dispatchTool tools (pyStrip n0) (pyStrip a0)
      = dispatchTool tools2 (pyStrip n0) (pyStrip a0)
    ∧ runIters tools (okLLM E f) maxIter (i :: rest) st
      = runIters tools (okLLM E f) maxIter rest
          { st with
            messages := msgsAfterUser st.messages (outboundPrompt maxIter i st)
              ++ [⟨"assistant".data, resposta⟩]
            proximo_prompt := "Observation: ".data
              ++ "ERROR: ferramenta nao encontrada".data
            iteracoes := st.iteracoes ++ [⟨i, resposta, some (pyStrip n0),
              some (pyStrip a0), some ("ERROR: ferramenta nao encontrada".data)⟩] } := by
  have hd : ∀ t : Tools, dispatchTool t (pyStrip n0) (pyStrip a0)
      = "ERROR: ferramenta nao encontrada".data := by
    intro t
    unfold dispatchTool
    rw [if_neg (fun hor => hor.elim (fun h1 => hn1 h1) (fun h2 => hn2 h2))]
  refine ⟨hd tools, (hd tools).trans (hd tools2).symm, ?_⟩
  subst hresp
  rw [runIters_cons, loopStep_okLLM, classifyStep_action _ _ _ _ _ _ _ hA hPA hm,
    hd tools]

theorem C5_unknown_tool_witness :
    dispatchTool toolsA (pyStrip "foo".data) (pyStrip "x".data)
      = "ERROR: ferramenta nao encontrada".data :=
  (C5_unknown_tool Unit toolsA toolsB (fun _ => "PAUSE Action: foo: x".data) 5 1 [2]
    (initialLoopState "s".data "o".data "d".data) "PAUSE Action: foo: x".data
    "foo".data "x".data rfl (by decide) (by decide) (by decide) (by decide)
    (by decide)).1

/-- C7 (counterexample): on the raw turn `"Answer:"` — classified as Answer —
the code records the final answer `":"`: the greedy-optional colon of the
extraction regex is captured by the group when nothing follows it.  This is
neither "everything after the marker (optionally colon and whitespace),
trimmed" (which is empty here) nor the whole-text fallback. -/
theorem C7_counterexample :
    subIn "Answer".data "Answer:".data = true
    ∧ answerResult "Answer:".data = [':']
    ∧ specAnswerExtract "Answer:".data = []
    ∧ ¬ ([':'] = ([] : Str))
    ∧ ¬ ([':'] = "Answer:".data) := by
  decide

/-- C7 (amended): for every raw turn classified as Answer, the recorded final
answer is everything after the first (case-insensitive) occurrence of the
marker, minus one optional colon and the whitespace after it, trimmed; if
nothing at all follows the marker the entire raw text is used, and if
exactly one colon follows the marker that colon itself is the answer. -/
theorem C7_answer_extraction (s : Str) (h : subIn "Answer".data s = true) :
    answerResult s = specAnswerExtractAmended s :=
  answerResult_eq_specAmended s

theorem C7_answer_extraction_witness :
    answerResult "Answer: hi".data = specAnswerExtractAmended "Answer: hi".data :=
  C7_answer_extraction "Answer: hi".data (by decide)

/-- The raw turn used to refute claim C4: an earlier line matches the Action
pattern only case-insensitively, a later line is well-formed per the spec. -/
def c4resp : Str := "PAUSE\nAction: FOO: bar\nAction: aaa: b".data

/-- C4 (counterexample): the claim says parsing extracts the FIRST
well-formed line `Action: <lowercase_name>: <arg>`.  Because the regex runs
under IGNORECASE, the earlier non-well-formed line `Action: FOO: bar` is
matched instead of the first well-formed line `Action: aaa: b`. -/
theorem C4_counterexample :
    subIn "PAUSE".data c4resp = true
    ∧ subIn "Action".data c4resp = true
    ∧ subIn "Answer".data c4resp = false
    ∧ firstWfActionLine c4resp = some ("aaa".data, "b".data)
    ∧ (findActionMatch c4resp).map (fun p => (pyStrip p.1, pyStrip p.2))
      = some ("FOO".data, "bar".data)
    ∧ ¬ ("FOO".data = "aaa".data) := by
  decide

/-- C4 (amended): on a turn with PAUSE and Action markers and no Answer
marker, parsing extracts the trimmed name and argument of the FIRST
occurrence (least starting position) of the pattern
`Action: <name>: <arg>` matched case-insensitively anywhere in the text,
ignoring all later matches, and the loop records exactly those fields. -/
theorem C4_first_ci_match (E : Type) (tools : Tools) (f : List Message → Str)
    (maxIter i : Nat) (rest : List Nat) (st : LoopState) (resposta n0 a0 : Str)
    (hresp : f (msgsAfterUser st.messages (outboundPrompt maxIter i st)) = resposta)
    (hA : subIn "Answer".data resposta = false)
    (hPA : (subIn "PAUSE".data resposta && subIn "Action".data resposta) = true)
    (hm : findActionMatch resposta = some (n0, a0)) :
    (∃ k, actionMatchAt (resposta.drop k) = some (n0, a0)
        ∧ ∀ j, j < k → actionMatchAt (resposta.drop j) = none)
    ∧ runIters tools (okLLM E f) maxIter (i :: rest) st
      = runIters tools (okLLM E f) maxIter rest
          { st with
            messages := msgsAfterUser st.messages (outboundPrompt maxIter i st)
              ++ [⟨"assistant".data, resposta⟩]
            proximo_prompt := "Observation: ".data
              ++ dispatchTool tools (pyStrip n0) (pyStrip a0)
            iteracoes := st.iteracoes ++ [⟨i, resposta, some (pyStrip n0),
              some (pyStrip a0),
              some (dispatchTool tools (pyStrip n0) (pyStrip a0))⟩] } := by
  refine ⟨findActionMatch_least resposta n0 a0 hm, ?_⟩
  subst hresp
  rw [runIters_cons, loopStep_okLLM, classifyStep_action _ _ _ _ _ _ _ hA hPA hm]

theorem C4_first_ci_match_witness :
    runIters toolsA (okLLM Unit fun _ => "PAUSE Action: get_country_info: Brazil".data)
        5 [1, 2]
        (initialLoopState "s".data "o".data "d".data)
      = runIters toolsA (okLLM Unit fun _ => "PAUSE Action: get_country_info: Brazil".data)
          5 [2]
          { initialLoopState "s".data "o".data "d".data with
            messages := msgsAfterUser
                (initialLoopState "s".data "o".data "d".data).messages
                (outboundPrompt 5 1 (initialLoopState "s".data "o".data "d".data))
              ++ [⟨"assistant".data, "PAUSE Action: get_country_info: Brazil".data⟩]
            proximo_prompt := "Observation: ".data
              ++ dispatchTool toolsA (pyStrip "get_country_info".data)
                  (pyStrip "Brazil".data)
            iteracoes := (initialLoopState "s".data "o".data "d".data).iteracoes
              ++ [⟨1, "PAUSE Action: get_country_info: Brazil".data,
                  some (pyStrip "get_country_info".data), some (pyStrip "Brazil".data),
                  some (dispatchTool toolsA (pyStrip "get_country_info".data)
                    (pyStrip "Brazil".data))⟩] } :=
  (C4_first_ci_match Unit toolsA (fun _ => "PAUSE Action: get_country_info: Brazil".data)
    5 1 [2] (initialLoopState "s".data "o".data "d".data)
    "PAUSE Action: get_country_info: Brazil".data "get_country_info".data "Brazil".data
    rfl (by decide) (by decide) (by decide)).2

/-- C1 (counterexample): the claim quantifies over responses containing the
CASE-INSENSITIVE marker "Answer".  On the response `"ANSWER: done"` — which
contains the marker case-insensitively — the loop does NOT classify the turn
as Answer: a one-iteration run ends with `sucesso = false` and an empty
final answer instead of success with answer "done". -/
theorem C1_counterexample :
    containsCI "Answer".data "ANSWER: done".data = true
    ∧ agent_loop toolsA (okLLM Unit fun _ => "ANSWER: done".data)
        "t".data "o".data "d".data 1 "s".data
      = .ok ({ timestamp := "t".data
               pais_origem := "o".data
               pais_destino := "d".data
               max_iteracoes := 1
               iteracoes_utilizadas := 1
               iteracoes := [⟨1, "ANSWER: done".data, none, none, none⟩]
               resposta_final := []
               sucesso := false }, []) := by
  constructor
  · decide
  · rfl

/-- C1 (amended): for every raw model response containing the
CASE-SENSITIVE literal "Answer", the loop classifies the turn as Answer and
terminates — the remaining iteration indices are discarded — recording the
extracted final answer, marking success, and appending one iteration record
with no tool fields; this holds for every tool oracle and regardless of any
Action or PAUSE markers in the same text (the resulting state mentions no
tool), so no tool is dispatched for that turn. -/
theorem C1_answer_breaks (E : Type) (tools : Tools) (f : List Message → Str)
    (maxIter i : Nat) (rest : List Nat) (st : LoopState) (resposta : Str)
    (hresp : f (msgsAfterUser st.messages (outboundPrompt maxIter i st)) = resposta)
    (hA : subIn "Answer".data resposta = true) :
    runIters tools (okLLM E f) maxIter (i :: rest) st
      = .ok { st with
          messages := msgsAfterUser st.messages (outboundPrompt maxIter i st)
            ++ [⟨"assistant".data, resposta⟩]
          resultado_final := answerResult resposta
          sucesso := true
          iteracoes := st.iteracoes ++ [⟨i, resposta, none, none, none⟩] } := by
  subst hresp
  rw [runIters_cons, loopStep_okLLM, classifyStep_answer _ _ _ _ _ hA]

theorem C1_answer_breaks_witness :
    runIters toolsA (okLLM Unit fun _ => "Answer PAUSE Action: get_country_info: x".data)
        3 [1, 2, 3] (initialLoopState "s".data "o".data "d".data)
      = .ok { initialLoopState "s".data "o".data "d".data with
          messages := msgsAfterUser
              (initialLoopState "s".data "o".data "d".data).messages
              (outboundPrompt 3 1 (initialLoopState "s".data "o".data "d".data))
            ++ [⟨"assistant".data, "Answer PAUSE Action: get_country_info: x".data⟩]
          resultado_final := answerResult "Answer PAUSE Action: get_country_info: x".data
          sucesso := true
          iteracoes := (initialLoopState "s".data "o".data "d".data).iteracoes
            ++ [⟨1, "Answer PAUSE Action: get_country_info: x".data,
                none, none, none⟩] } :=
  C1_answer_breaks Unit toolsA (fun _ => "Answer PAUSE Action: get_country_info: x".data)
    3 1 [2, 3] (initialLoopState "s".data "o".data "d".data)
    "Answer PAUSE Action: get_country_info: x".data rfl (by decide)

/-- C2: for every run with budget at least 1 in which every model call
returns a string, the loop executes at most `max_iterations` iterations
(records are numbered consecutively from 1, one per executed iteration),
and at termination `iteracoes_utilizadas` equals the length of the
`iteracoes` list. -/
theorem C2_budget_and_records (E : Type) (tools : Tools) (f : List Message → Str)
    (ts o d sys : Str) (maxIter : Nat) (log : AgentLog) (r : Str)
    (hb : 1 ≤ maxIter)
    (h : agent_loop tools (okLLM E f) ts o d maxIter sys = .ok (log, r)) :
    log.iteracoes_utilizadas = log.iteracoes.length
    ∧ log.iteracoes.length ≤ maxIter
    ∧ log.iteracoes.map (fun rec => rec.numero)
      = List.range' 1 log.iteracoes.length := by
  obtain ⟨st', recs, newMsgs, hrun, hit, hmap, hmsg, hpairs, hlen, hprompt, hdisj⟩ :=
    runIters_okLLM_spec E tools f maxIter (List.range' 1 maxIter)
      (initialLoopState sys o d) (initialPrompt_ne_nil o d)
  unfold agent_loop at h
  rw [hrun] at h
  injection h with hpair
  injection hpair with hl hr
  subst hl
  have hit' : st'.iteracoes = recs := by
    rw [hit]
    rfl
  have hklen := congrArg List.length hmap
  rw [List.length_map, List.length_take, List.length_range'] at hklen
  have hk : recs.length ≤ maxIter := by omega
  refine ⟨rfl, ?_, ?_⟩
  · show st'.iteracoes.length ≤ maxIter
    rw [hit']
    exact hk
  · show st'.iteracoes.map (fun rec => rec.numero)
      = List.range' 1 st'.iteracoes.length
    rw [hit', hmap, take_range' maxIter recs.length 1 hk]

theorem C2_budget_and_records_witness :
    (1 : Nat) = 1 ∧ (1 : Nat) ≤ 1 ∧ ([1] : List Nat) = List.range' 1 1 :=
  C2_budget_and_records Unit toolsA (fun _ => "x".data)
    "t".data "o".data "d".data "s".data 1
    { timestamp := "t".data
      pais_origem := "o".data
      pais_destino := "d".data
      max_iteracoes := 1
      iteracoes_utilizadas := 1
      iteracoes := [⟨1, "x".data, none, none, none⟩]
      resposta_final := []
      sucesso := false } [] (by omega) rfl

/-- C6: for every run in which no model response is classified as Answer
(no response contains the case-sensitive marker), the loop terminates after
exactly `budget` iterations with `sucesso = false` and an empty
`resposta_final`, and no `budget + 1`-th record is appended
(`iteracoes_utilizadas = budget` exactly). -/
theorem C6_exhaustion (E : Type) (tools : Tools) (f : List Message → Str)
    (ts o d sys : Str) (maxIter : Nat) (log : AgentLog) (r : Str)
    (hf : ∀ m, subIn "Answer".data (f m) = false)
    (h : agent_loop tools (okLLM E f) ts o d maxIter sys = .ok (log, r)) :
    log.sucesso = false ∧ log.resposta_final = []
    ∧ log.iteracoes.length = maxIter ∧ log.iteracoes_utilizadas = maxIter := by
  obtain ⟨st', h1, h2, h3, h4⟩ := runIters_noAnswer E tools f maxIter hf
    (List.range' 1 maxIter) (initialLoopState sys o d)
  unfold agent_loop at h
  rw [h1] at h
  injection h with hpair
  injection hpair with hl hr
  subst hl
  have hlen : st'.iteracoes.length = maxIter := by
    rw [h2]
    simp [initialLoopState, List.length_range']
  exact ⟨h3, h4, hlen, hlen⟩

theorem C6_exhaustion_witness :
    (false = false) ∧ (([] : Str) = []) ∧ ((1 : Nat) = 1) ∧ ((1 : Nat) = 1) :=
  C6_exhaustion Unit toolsA (fun _ => "x".data) "t".data "o".data "d".data "s".data 1
    { timestamp := "t".data
      pais_origem := "o".data
      pais_destino := "d".data
      max_iteracoes := 1
      iteracoes_utilizadas := 1
      iteracoes := [⟨1, "x".data, none, none, none⟩]
      resposta_final := []
      sucesso := false } [] (fun m => rfl) rfl

/-- C8: in every pure run started with a non-empty system prompt, the final
transcript starts with the system message, the rest is an alternation of
user/assistant pairs — one user and one assistant message per completed
iteration, so its length is `1 + 2 * (number of records)` — and the initial
transcript (the system message) is still a prefix: the first message is
never removed or reordered and the transcript never shrinks. -/
theorem C8_transcript_invariant (E : Type) (tools : Tools) (f : List Message → Str)
    (sys o d : Str) (maxIter : Nat) (st' : LoopState)
    (hsys : sys ≠ [])
    (h : runIters tools (okLLM E f) maxIter (List.range' 1 maxIter)
      (initialLoopState sys o d) = .ok st') :
    st'.messages.head? = some ⟨"system".data, sys⟩
    ∧ userAssistantPairs (st'.messages.drop 1) = true
    ∧ st'.messages.length = 1 + 2 * st'.iteracoes.length
    ∧ isPrefixL (agentInit sys) st'.messages = true := by
  obtain ⟨st'', recs, newMsgs, hrun, hit, hmap, hmsg, hpairs, hlen, hprompt, hdisj⟩ :=
    runIters_okLLM_spec E tools f maxIter (List.range' 1 maxIter)
      (initialLoopState sys o d) (initialPrompt_ne_nil o d)
  have hstq : st'' = st' := by
    have h12 := hrun.symm.trans h
    injection h12
  subst hstq
  have hai : agentInit sys = [⟨"system".data, sys⟩] := by
    unfold agentInit
    rw [if_neg (by simpa [List.isEmpty_iff] using hsys)]
  have hm0 : (initialLoopState sys o d).messages = [⟨"system".data, sys⟩] := hai
  have hmsg' : st''.messages = ⟨"system".data, sys⟩ :: newMsgs := by
    rw [hmsg, hm0]
    rfl
  have hitlen : st''.iteracoes.length = recs.length := by
    rw [hit]
    rfl
  refine ⟨?_, ?_, ?_, ?_⟩
  · rw [hmsg']
    rfl
  · rw [hmsg']
    simpa using hpairs
  · rw [hmsg']
    simp only [List.length_cons]
    rw [hitlen, hlen]
    omega
  · rw [hmsg', hai]
    simp [isPrefixL]

theorem C8_transcript_invariant_witness :
    (some (⟨"system".data, "s".data⟩ : Message) = some ⟨"system".data, "s".data⟩)
    ∧ (true = true) ∧ ((3 : Nat) = 3) ∧ (true = true) :=
  C8_transcript_invariant Unit toolsA (fun _ => "x".data) "s".data "o".data "d".data 1
    { messages := [⟨"system".data, "s".data⟩,
        ⟨"user".data, initialPrompt "o".data "d".data ++ lastIterationWarning 1 1⟩,
        ⟨"assistant".data, "x".data⟩]
      proximo_prompt := initialPrompt "o".data "d".data
      resultado_final := []
      iteracoes := [⟨1, "x".data, none, none, none⟩]
      sucesso := false } (by decide) rfl

/-- C9: a failure of the model-endpoint call is not caught inside the loop
controller: the step that encounters it returns the error unchanged (no
record is appended for that turn), and `agent_loop` returns the error of its
run with no `AgentLog` finalisation — the `.error` result carries no log, so
neither `iteracoes_utilizadas` nor `resposta_final` is set and nothing is
handed to the log writer. -/
theorem C9_transport_failure (E : Type) (tools : Tools)
    (llm : List Message → Except E Str) (maxIter i : Nat) (rest : List Nat)
    (st : LoopState) (e e' : E) (ts o d sys : Str)
    (h1 : llm (msgsAfterUser st.messages (outboundPrompt maxIter i st)) = .error e)
    (h2 : runIters tools llm maxIter (List.range' 1 maxIter)
      (initialLoopState sys o d) = .error e') :
    runIters tools llm maxIter (i :: rest) st = .error e
    ∧ agent_loop tools llm ts o d maxIter sys = .error e' := by
  constructor
  · have hstep : loopStep tools llm maxIter i st = .error e := by
      unfold loopStep agentCall
      rw [h1]
    rw [runIters_cons, hstep]
  · unfold agent_loop
    rw [h2]

theorem C9_transport_failure_witness :
    runIters toolsA (fun _ => (Except.error 2 : Except Nat Str)) 1 [1]
        (initialLoopState "s".data "o".data "d".data) = .error 2
    ∧ agent_loop toolsA (fun _ => (Except.error 2 : Except Nat Str))
        "t".data "o".data "d".data 1 "s".data = .error 2 :=
  C9_transport_failure Nat toolsA (fun _ => .error 2) 1 1 []
    (initialLoopState "s".data "o".data "d".data) 2 2
    "t".data "o".data "d".data "s".data rfl rfl
